import Mathlib

/-!
Verification development for the flight booking system
(`cred_flights_booking`): a shallow embedding in Lean 4 of the
seat-inventory cache primitives, the booking saga, the cancellation
operation, and the itinerary pathfinder, together with theorems
settling the specified properties.

Modelling conventions, used throughout:
* machine integers (Go `int`, `int64`) are modelled as `Int`;
* money (Go `float64` prices) is modelled as `Int` (no claim depends
  on fractional amounts);
* timestamps (`time.Time`) are modelled as `Int` minutes, and the SQL
  `DATE(t)` projection as `t / 1440` (minutes per day), so a calendar
  date is an `Int` day number;
* the Redis cache is modelled as an association list whose operations
  replace the first occurrence of a key, matching a key-value store;
* Redis TTLs and log statements are dropped: no claim depends on
  expiry or logging.
-/

namespace CredFlights

/-- Key of a seat-inventory cache entry: `(flightID, date)`, the data
encoded by `GenerateSeatCacheKey`. -/
abbrev SeatKey := Nat × Int

/-- The Redis-backed seat-inventory cache: available-seat count per
`(flightID, date)` key. -/
abbrev SeatCache := List (SeatKey × Int)

/-- Redis `GET` on the seat cache: first entry with the given key. -/
def lookupSeat : SeatCache → SeatKey → Option Int
  | [], _ => none
  | e :: t, k => if e.1 = k then some e.2 else lookupSeat t k

/-- Redis `SET` on the seat cache: replace the value at the first
occurrence of the key, or append a fresh entry. -/
def setSeat : SeatCache → SeatKey → Int → SeatCache
  | [], k, v => [(k, v)]
  | e :: t, k, v => if e.1 = k then (k, v) :: t else e :: setSeat t k v

/-- Error outcomes of the atomic decrement Lua script in
`FlightService.DecrementSeats`. -/
inductive SeatErr where
  /-- the Lua script's `Seat count not found in cache` branch -/
  | notFound
  /-- the Lua script's `Not enough seats available` branch -/
  | insufficient
  deriving DecidableEq, Repr

/-- Embedding of `FlightService.DecrementSeats`: the Redis Lua script
reads the current count, fails if the key is absent, fails if fewer
than `seats` remain, and otherwise performs `DECRBY` — all as one
atomic step (the script runs atomically in Redis, so the model is a
single function application). On success it returns the new count and
the updated cache; on failure the cache is unchanged (no cache is
returned). -/
def DecrementSeats (c : SeatCache) (flightID : Nat) (seats : Int) (date : Int) :
    Except SeatErr (Int × SeatCache) :=
  match lookupSeat c (flightID, date) with
  | none => .error .notFound
  | some available =>
    if available < seats then .error .insufficient
    else .ok (available - seats, setSeat c (flightID, date) (available - seats))

/-- Embedding of `FlightService.IncrementSeats`: Redis `INCRBY`, which
adds to an existing key and treats an absent key as `0` (creating it
with the increment amount). -/
def IncrementSeats (c : SeatCache) (flightID : Nat) (seats : Int) (date : Int) : SeatCache :=
  match lookupSeat c (flightID, date) with
  | some v => setSeat c (flightID, date) (v + seats)
  | none => c ++ [((flightID, date), seats)]

/-- One inventory operation on the seat cache, as issued against the
flight service's seat endpoints. -/
inductive SeatOp where
  | dec (flightID : Nat) (seats : Int) (date : Int)
  | inc (flightID : Nat) (seats : Int) (date : Int)
  deriving DecidableEq, Repr

/-- The seat amount an operation carries. -/
def SeatOp.amount : SeatOp → Int
  | .dec _ s _ => s
  | .inc _ s _ => s

/-- Apply one operation to the cache. A failed decrement leaves the
cache untouched (the Lua script errors before any `DECRBY`). -/
def applySeatOp (c : SeatCache) : SeatOp → SeatCache
  | .dec id s d =>
    match DecrementSeats c id s d with
    | .ok (_, c') => c'
    | .error _ => c
  | .inc id s d => IncrementSeats c id s d

/-- Apply a sequence of operations, left to right. -/
def applySeatOps (ops : List SeatOp) (c : SeatCache) : SeatCache :=
  ops.foldl applySeatOp c

/-- Every count held in the cache is nonnegative. -/
def CacheNonneg (c : SeatCache) : Prop := ∀ e ∈ c, 0 ≤ e.2

instance (c : SeatCache) : Decidable (CacheNonneg c) := by
  unfold CacheNonneg; infer_instance

/-! Generic key-value store operations, used for the temp-booking
store, the durable bookings table, and the booking cache. `lookupKV`
and `setKV` mirror `lookupSeat`/`setSeat`; `delKV` is Redis `DEL`,
removing the key entirely. -/

def lookupKV {κ α : Type} [DecidableEq κ] : List (κ × α) → κ → Option α
  | [], _ => none
  | e :: t, k => if e.1 = k then some e.2 else lookupKV t k

def setKV {κ α : Type} [DecidableEq κ] : List (κ × α) → κ → α → List (κ × α)
  | [], k, v => [(k, v)]
  | e :: t, k, v => if e.1 = k then (k, v) :: t else e :: setKV t k v

def delKV {κ α : Type} [DecidableEq κ] : List (κ × α) → κ → List (κ × α)
  | [], _ => []
  | e :: t, k => if e.1 = k then delKV t k else e :: delKV t k

/-! Data model of the booking service (`internal/models`). -/

/-- Booking status constants from `internal/models/booking.go`. -/
def BookingStatusPending : String := "pending"

def BookingStatusConfirmed : String := "confirmed"

def BookingStatusFailed : String := "failed"

def BookingStatusCancelled : String := "cancelled"

/-- Payment status constants from the payment models file. -/
def PaymentStatusSuccess : String := "success"

def PaymentStatusFailed : String := "failed"

def PaymentStatusTimeout : String := "timeout"

/-- `models.FlightValidationResponse`. -/
structure FlightValidationResponse where
  valid : Bool
  message : String
  price : Int
  available : Int
  deriving DecidableEq, Repr

/-- `models.PaymentResponse` (the fields the booking saga reads). -/
structure PaymentResponse where
  paymentID : String
  status : String
  message : String
  deriving DecidableEq, Repr

/-- `models.BookingRequest`. -/
structure BookingRequest where
  userID : Nat
  flightID : Nat
  seats : Int
  date : Int
  deriving DecidableEq, Repr

/-- `models.TempBooking`. -/
structure TempBooking where
  userID : Nat
  flightID : Nat
  seats : Int
  totalAmount : Int
  date : Int
  createdAt : Int
  expiresAt : Int
  deriving DecidableEq, Repr

/-- `models.Booking` (durable record). -/
structure Booking where
  id : Nat
  userID : Nat
  flightID : Nat
  seats : Int
  totalAmount : Int
  status : String
  paymentID : String
  date : Int
  createdAt : Int
  deriving DecidableEq, Repr

/-- `models.BookingResponse`. Absent fields of the Go struct literal
default to the zero value, matching Go semantics. -/
structure BookingResponse where
  bookingID : Nat := 0
  status : String := ""
  totalAmount : Int := 0
  paymentID : String := ""
  message : String := ""
  deriving DecidableEq, Repr

/-- `Booking.CanCancel` from `internal/models/booking.go`: a booking
can be cancelled only from `pending` or `confirmed` status. -/
def Booking.CanCancel (b : Booking) : Bool :=
  b.status == BookingStatusPending || b.status == BookingStatusConfirmed

/-- Shared mutable state the booking service operates on: the
Redis-backed seat cache and temp-booking store, the durable bookings
table, and the Redis booking cache. -/
structure BookingState where
  seatCache : SeatCache
  tempBookings : List ((Nat × Nat) × TempBooking)
  bookings : List (Nat × Booking)
  bookingCache : List (Nat × Booking)
  deriving DecidableEq, Repr

/-- Behaviour of the saga's collaborators for one `CreateBooking`
run: the flight-service validation call, the Redis write of the temp
booking, the payment collaborator call (`.error` = transport failure,
i.e. the collaborator is unreachable or the call is cancelled), the
durable-store insert, and whether the compensating increment call
reaches the flight service. `now` is the wall clock read by
`time.Now()`. -/
structure SagaEnv where
  validation : Except String FlightValidationResponse
  tempSetOK : Bool
  payment : Except String PaymentResponse
  persist : Except String Nat
  incrementOK : Bool
  now : Int
  deriving Repr

/-- Embedding of `BookingServiceV2.revertBookingOnFailure`: increment
the seats back (a transport failure of this call is logged and
otherwise ignored) and delete the temp booking. -/
def revertBookingOnFailure (env : SagaEnv) (st : BookingState)
    (flightID : Nat) (seats date : Int) (tempBookingKey : Nat × Nat) : BookingState :=
  let cache :=
    if env.incrementOK then IncrementSeats st.seatCache flightID seats date
    else st.seatCache
  { st with seatCache := cache,
            tempBookings := delKV st.tempBookings tempBookingKey }

/-- Embedding of `BookingServiceV2.createPermanentBooking`: insert the
confirmed booking into the durable store and cache it. -/
def createPermanentBooking (env : SagaEnv) (req : BookingRequest)
    (totalAmount : Int) (paymentID : String) (st : BookingState) :
    Except String (Nat × BookingState) :=
  match env.persist with
  | .error e => .error e
  | .ok bookingID =>
    let booking : Booking :=
      { id := bookingID, userID := req.userID, flightID := req.flightID,
        seats := req.seats, totalAmount := totalAmount,
        status := BookingStatusConfirmed, paymentID := paymentID,
        date := req.date, createdAt := env.now }
    .ok (bookingID, { st with
      bookings := setKV st.bookings bookingID booking,
      bookingCache := setKV st.bookingCache bookingID booking })

/-- Embedding of `BookingServiceV2.CreateBooking`: validate, stage a
TempBooking, atomically decrement seats, call the payment
collaborator, then confirm or compensate according to the payment
outcome, exactly mirroring the Go control flow. -/
def CreateBooking (env : SagaEnv) (req : BookingRequest) (st : BookingState) :
    Except String (BookingResponse × BookingState) :=
  match env.validation with
  | .error e => .error ("failed to validate flight: " ++ e)
  | .ok validation =>
    if validation.valid = false then
      .ok ({ status := BookingStatusFailed, message := validation.message }, st)
    else
      let tempBooking : TempBooking :=
        { userID := req.userID, flightID := req.flightID, seats := req.seats,
          totalAmount := validation.price, date := req.date,
          createdAt := env.now, expiresAt := env.now + 15 * 60 }
      let tempBookingKey := (req.userID, req.flightID)
      if env.tempSetOK = false then .error "failed to create temporary booking"
      else
        let st1 := { st with tempBookings := setKV st.tempBookings tempBookingKey tempBooking }
        match DecrementSeats st1.seatCache req.flightID req.seats req.date with
        | .error _ =>
          let st2 := { st1 with tempBookings := delKV st1.tempBookings tempBookingKey }
          .ok ({ status := BookingStatusFailed,
                 message := "Failed to reserve seats" }, st2)
        | .ok (_, newSeatCache) =>
          let st2 := { st1 with seatCache := newSeatCache }
          match env.payment with
          | .error e =>
            let st3 := revertBookingOnFailure env st2 req.flightID req.seats req.date tempBookingKey
            .ok ({ status := BookingStatusFailed,
                   message := "Payment failed: " ++ e }, st3)
          | .ok paymentResp =>
            if paymentResp.status = PaymentStatusSuccess then
              match createPermanentBooking env req validation.price paymentResp.paymentID st2 with
              | .error e =>
                let st3 := revertBookingOnFailure env st2 req.flightID req.seats req.date tempBookingKey
                .ok ({ status := BookingStatusFailed,
                       message := "Failed to create booking: " ++ e }, st3)
              | .ok (bookingID, st3) =>
                let st4 := { st3 with tempBookings := delKV st3.tempBookings tempBookingKey }
                .ok ({ bookingID := bookingID, status := BookingStatusConfirmed,
                       totalAmount := validation.price,
                       paymentID := paymentResp.paymentID,
                       message := "Booking created successfully" }, st4)
            else if paymentResp.status = PaymentStatusFailed ∨
                    paymentResp.status = PaymentStatusTimeout then
              let st3 := revertBookingOnFailure env st2 req.flightID req.seats req.date tempBookingKey
              .ok ({ status := BookingStatusFailed,
                     totalAmount := validation.price,
                     message := paymentResp.message }, st3)
            else
              .ok ({ status := BookingStatusPending,
                     totalAmount := validation.price,
                     message := "Payment pending, please retry" }, st2)

/-- Embedding of `BookingServiceV2.GetBooking`: read the booking
cache, fall back to the durable store, caching the result. -/
def GetBooking (st : BookingState) (bookingID : Nat) :
    Except String (Booking × BookingState) :=
  match lookupKV st.bookingCache bookingID with
  | some booking => .ok (booking, st)
  | none =>
    match lookupKV st.bookings bookingID with
    | none => .error "booking not found"
    | some booking =>
      .ok (booking, { st with bookingCache := setKV st.bookingCache bookingID booking })

/-- The SQL `UPDATE bookings SET status = $1 WHERE id = $2`. -/
def updateBookingStatus (l : List (Nat × Booking)) (bookingID : Nat)
    (status : String) : List (Nat × Booking) :=
  l.map (fun e => if e.1 = bookingID then (e.1, { e.2 with status := status }) else e)

/-- Embedding of `BookingServiceV2.CancelBooking`: fetch the booking,
reject unless `CanCancel`, durably flip the status to `cancelled`,
attempt the seat increment (a transport failure is logged, never
propagated, and the cancelled status is not rolled back), and drop the
booking from the cache. -/
def CancelBooking (env : SagaEnv) (st : BookingState) (bookingID : Nat) :
    Except String BookingState :=
  match GetBooking st bookingID with
  | .error e => .error ("failed to get booking: " ++ e)
  | .ok (booking, st1) =>
    if booking.CanCancel = false then
      .error ("booking cannot be cancelled in current status: " ++ booking.status)
    else
      let st2 := { st1 with
        bookings := updateBookingStatus st1.bookings bookingID BookingStatusCancelled }
      let newCache :=
        if env.incrementOK then
          IncrementSeats st2.seatCache booking.flightID booking.seats booking.date
        else st2.seatCache
      let st3 := { st2 with seatCache := newCache }
      .ok { st3 with bookingCache := delKV st3.bookingCache bookingID }

/-! Data model and operations of the flight service
(`internal/services/flight_service.go`, `internal/models/flight.go`). -/

/-- `models.Flight`. Timestamps are minutes (`Int`). -/
structure Flight where
  id : Nat
  flightNumber : String
  source : String
  destination : String
  departureTime : Int
  arrivalTime : Int
  totalSeats : Int
  bookedSeats : Int
  price : Int
  createdAt : Int
  deriving DecidableEq, Repr

/-- `Flight.AvailableSeats`: total minus booked. -/
def Flight.AvailableSeats (f : Flight) : Int := f.totalSeats - f.bookedSeats

/-- The SQL `DATE(t)` projection of a minute timestamp: its day
number (1440 minutes per day). -/
def dateOf (t : Int) : Int := t / 1440

/-- Total travel time of a leg list (`FlightPath.CalculateTotalTime`):
arrival of the last leg minus departure of the first, `0` when
empty. -/
def totalTimeOf (flights : List Flight) : Int :=
  match flights.head?, flights.getLast? with
  | some f, some l => l.arrivalTime - f.departureTime
  | _, _ => 0

/-- `models.FlightPath` with its derived attributes. -/
structure FlightPath where
  flights : List Flight
  totalPrice : Int
  totalTime : Int
  stops : Int
  deriving DecidableEq, Repr

/-- Builds a `FlightPath` and runs `CalculateTotalPrice`,
`CalculateTotalTime` and `CalculateStops` on it, as every construction
site in the service does. -/
def mkFlightPath (flights : List Flight) : FlightPath :=
  { flights := flights
    totalPrice := (flights.map (fun f => f.price)).sum
    totalTime := totalTimeOf flights
    stops := if flights.length ≤ 1 then 0 else (flights.length : Int) - 1 }

/-- Insertion step of the comparison sort modelling `sort.Slice`. -/
def insertSorted {α : Type} (le : α → α → Bool) (a : α) : List α → List α
  | [] => [a]
  | b :: t => if le a b then a :: b :: t else b :: insertSorted le a t

/-- Comparison sort modelling `sort.Slice` / SQL `ORDER BY` (the
claims depend on the result being a permutation, not on tie order). -/
def sortByLe {α : Type} (le : α → α → Bool) : List α → List α
  | [] => []
  | a :: t => insertSorted le a (sortByLe le t)

/-- Embedding of `findDirectFlights`: the SQL query selecting flights
with the requested source, destination and date that still have at
least `seats` free, ordered by departure time. -/
def findDirectFlights (db : List Flight) (source destination : String)
    (date seats : Int) : List Flight :=
  sortByLe (fun f g => f.departureTime ≤ g.departureTime)
    (db.filter (fun f => f.source = source ∧ f.destination = destination ∧
      dateOf f.departureTime = date ∧ seats ≤ f.AvailableSeats))

/-- The join/where condition of the recursive arm of the CTE built by
`buildMultiStopQuery`: the new leg `f` departs from the partial path's
last destination, lands at the requested destination (the query
constrains EVERY added leg by `f.destination = $2`), is on the
requested date, has enough seats, departs strictly after the previous
arrival and within the 4-hour (240-minute) connection window. -/
def connectOK (destination : String) (date seats : Int)
    (p : List Flight) (f : Flight) : Bool :=
  match p.getLast? with
  | none => false
  | some l =>
    l.destination = f.source ∧ f.destination = destination ∧
    dateOf f.departureTime = date ∧ seats ≤ f.AvailableSeats ∧
    l.arrivalTime < f.departureTime ∧ f.departureTime ≤ l.arrivalTime + 240

/-- Base case of the CTE: every flight leaving the source on the date
with enough seats, as a one-leg partial path. -/
def baseRows (db : List Flight) (source : String) (date seats : Int) :
    List (List Flight) :=
  (db.filter (fun f => f.source = source ∧ dateOf f.departureTime = date ∧
    seats ≤ f.AvailableSeats)).map (fun f => [f])

/-- Recursive arm of the CTE: extend each partial path by every
connecting flight. -/
def extendRows (db : List Flight) (destination : String) (date seats : Int)
    (rows : List (List Flight)) : List (List Flight) :=
  rows.flatMap (fun p => (db.filter (connectOK destination date seats p)).map
    (fun f => p ++ [f]))

/-- Evaluation of the recursive CTE, fuelled by `maxStops`: the union
of the stop-count levels `1 .. maxStops` (a level-`k` row has `k`
legs, and the query only extends rows with `stops < maxStops`). -/
def cteIterate (db : List Flight) (destination : String) (date seats : Int) :
    Nat → List (List Flight) → List (List Flight)
  | 0, _ => []
  | n + 1, cur => cur ++ cteIterate db destination date seats n
      (extendRows db destination date seats cur)

/-- `generatePathKey`: the ordered leg ids joined with `-`. -/
def generatePathKey (flights : List Flight) : String :=
  String.intercalate "-" (flights.map (fun f => toString f.id))

/-- The `pathMap` deduplication of `findMultiStopFlights`: keep each
path key's first row. (Go iterates the map in unspecified order; the
model keeps discovery order, which no claim depends on.) -/
def dedupByKey : List (List Flight) → List String → List (List Flight)
  | [], _ => []
  | p :: rest, seen =>
    if generatePathKey p ∈ seen then dedupByKey rest seen
    else p :: dedupByKey rest (generatePathKey p :: seen)

/-- Embedding of `findMultiStopFlights`: run the recursive CTE of
`buildMultiStopQuery`, keep the rows whose final destination is the
requested one, deduplicate by path key, and build `FlightPath`s. (The
SQL `ORDER BY stops, prices[1]` is dropped because the Go map
iteration that follows it is order-nondeterministic.) -/
def findMultiStopFlights (db : List Flight) (source destination : String)
    (date seats : Int) (maxStops : Nat) : List FlightPath :=
  let rows := (cteIterate db destination date seats maxStops
      (baseRows db source date seats)).filter
    (fun p => match p.getLast? with
      | some l => l.destination = destination
      | none => false)
  (dedupByKey rows []).map mkFlightPath

/-- Embedding of `findFlightPaths`: direct flights first, then the
multi-stop passes for `maxStops = 1, 2, 3`, concatenated. -/
def findFlightPaths (db : List Flight) (source destination : String)
    (date seats : Int) : List FlightPath :=
  (findDirectFlights db source destination date seats).map (fun f => mkFlightPath [f]) ++
  findMultiStopFlights db source destination date seats 1 ++
  findMultiStopFlights db source destination date seats 2 ++
  findMultiStopFlights db source destination date seats 3

/-- Embedding of `getAvailableSeats`: the seat cache first, falling
back to the database row `total_seats - booked_seats` for the flight
on that date; `none` models the error when neither holds the key. (The
TTL write-back on a cache miss is dropped: it never changes a returned
count.) -/
def getAvailableSeats (c : SeatCache) (db : List Flight)
    (flightID : Nat) (date : Int) : Option Int :=
  match lookupSeat c (flightID, date) with
  | some seats => some seats
  | none =>
    match db.find? (fun f => f.id = flightID ∧ dateOf f.departureTime = date) with
    | some f => some f.AvailableSeats
    | none => none

/-- The filtering loop of `filterAndSortFlights`: for each flight,
look up its live availability (skipping the flight on error, the Go
`continue`), keep it when it still has enough seats, and wrap it as a
one-leg `FlightPath`. -/
def validPathsOf (c : SeatCache) (db : List Flight) (flights : List Flight)
    (requestedSeats : Int) : List FlightPath :=
  flights.filterMap (fun flight =>
    match getAvailableSeats c db flight.id (dateOf flight.departureTime) with
    | none => none
    | some availableSeats =>
      if requestedSeats ≤ availableSeats then some (mkFlightPath [flight]) else none)

/-- Embedding of `sortFlightPaths`: sort by total price for
`cheapest` (and by default), by total time for `fastest`. -/
def sortFlightPaths (paths : List FlightPath) (sortBy : String) : List FlightPath :=
  if sortBy = "cheapest" then sortByLe (fun p q => p.totalPrice ≤ q.totalPrice) paths
  else if sortBy = "fastest" then sortByLe (fun p q => p.totalTime ≤ q.totalTime) paths
  else sortByLe (fun p q => p.totalPrice ≤ q.totalPrice) paths

/-- Embedding of `filterAndSortFlights`: seat-filter, sort, and keep
only the first 20 paths. -/
def filterAndSortFlights (c : SeatCache) (db : List Flight) (flights : List Flight)
    (requestedSeats : Int) (sortBy : String) : List FlightPath :=
  let sorted := sortFlightPaths (validPathsOf c db flights requestedSeats) sortBy
  if 20 < sorted.length then sorted.take 20 else sorted

/-- Deduplication by flight id modelling the `map[int]Flight` of
`searchFlightsFromDB` (first occurrence kept; rows with equal id
coming from one database are identical). -/
def dedupFlightsByID : List Flight → List Nat → List Flight
  | [], _ => []
  | f :: rest, seen =>
    if f.id ∈ seen then dedupFlightsByID rest seen
    else f :: dedupFlightsByID rest (f.id :: seen)

/-- Embedding of `searchFlightsFromDB`: find all paths (with a 1-seat
requirement), then flatten them to the set of distinct flights they
use. -/
def searchFlightsFromDB (db : List Flight) (source destination : String)
    (date : Int) : List Flight :=
  let paths := findFlightPaths db source destination date 1
  dedupFlightsByID (paths.flatMap (fun p => p.flights)) []

/-- `models.SearchRequest` (the date already parsed to a day
number). -/
structure SearchRequest where
  source : String
  destination : String
  date : Int
  seats : Int
  sortBy : String
  deriving DecidableEq, Repr

/-- `models.SearchResponse`. -/
structure SearchResponse where
  paths : List FlightPath
  count : Nat
  deriving DecidableEq, Repr

/-- Embedding of `SearchFlights`: on a search-cache hit, filter and
sort the cached flight set; on a miss, recompute from the database
(the singleflight coalescing and the cache write are concurrency
behaviour outside this sequential model), then filter and sort. -/
def SearchFlights (c : SeatCache) (db : List Flight)
    (searchCache : Option (List Flight)) (req : SearchRequest) : SearchResponse :=
  match searchCache with
  | some cachedFlights =>
    let paths := filterAndSortFlights c db cachedFlights req.seats req.sortBy
    { paths := paths, count := paths.length }
  | none =>
    let flightList := searchFlightsFromDB db req.source req.destination req.date
    let paths := filterAndSortFlights c db flightList req.seats req.sortBy
    { paths := paths, count := paths.length }

/-- Pairwise connection validity of consecutive legs, from the spec's
words: each connection's departure is strictly after the previous
leg's arrival and at most 4 hours (240 minutes) after it, departing
where the previous leg landed. -/
def connectedLegs : List Flight → Bool
  | a :: b :: t =>
    (a.destination = b.source ∧ a.arrivalTime < b.departureTime ∧
      b.departureTime ≤ a.arrivalTime + 240 : Prop) ∧ connectedLegs (b :: t) = true
  | _ => true

/-- Specification-side itinerary validity, written from the spec's
words (§4.1): a nonempty chain of at most four legs (0-3 connections)
drawn from the flight table, starting at the source, ending at the
destination, each leg on the requested date with `available ≥ seats`,
and consecutive legs validly connected. -/
def SpecValidItinerary (db : List Flight) (source destination : String)
    (date seats : Int) (legs : List Flight) : Prop :=
  legs ≠ [] ∧ legs.length ≤ 4 ∧ (∀ f ∈ legs, f ∈ db) ∧
  legs.head?.map (fun f => f.source) = some source ∧
  legs.getLast?.map (fun f => f.destination) = some destination ∧
  (∀ f ∈ legs, dateOf f.departureTime = date ∧ seats ≤ f.AvailableSeats) ∧
  connectedLegs legs = true

instance (db : List Flight) (source destination : String) (date seats : Int)
    (legs : List Flight) :
    Decidable (SpecValidItinerary db source destination date seats legs) :=
  inferInstanceAs (Decidable (legs ≠ [] ∧ legs.length ≤ 4 ∧ (∀ f ∈ legs, f ∈ db) ∧
    legs.head?.map (fun f => f.source) = some source ∧
    legs.getLast?.map (fun f => f.destination) = some destination ∧
    (∀ f ∈ legs, dateOf f.departureTime = date ∧ seats ≤ f.AvailableSeats) ∧
    connectedLegs legs = true))

/-- Leg `A → B` of the concrete three-leg network used to evaluate the
pathfinder. -/
def flightAB : Flight :=
  { id := 1, flightNumber := "F1", source := "A", destination := "B",
    departureTime := 60, arrivalTime := 120, totalSeats := 10, bookedSeats := 0,
    price := 10, createdAt := 0 }

/-- Leg `B → C` of the concrete network. -/
def flightBC : Flight :=
  { id := 2, flightNumber := "F2", source := "B", destination := "C",
    departureTime := 180, arrivalTime := 240, totalSeats := 10, bookedSeats := 0,
    price := 10, createdAt := 0 }

/-- Leg `C → D` of the concrete network. -/
def flightCD : Flight :=
  { id := 3, flightNumber := "F3", source := "C", destination := "D",
    departureTime := 300, arrivalTime := 360, totalSeats := 10, bookedSeats := 0,
    price := 10, createdAt := 0 }

/-- A single direct flight `A → D`, used to exhibit duplicate
itineraries across pathfinder passes. -/
def flightAD : Flight :=
  { id := 1, flightNumber := "F9", source := "A", destination := "D",
    departureTime := 60, arrivalTime := 180, totalSeats := 10, bookedSeats := 0,
    price := 50, createdAt := 0 }

theorem lookupSeat_mem {c : SeatCache} {k : SeatKey} {v : Int}
    (h : lookupSeat c k = some v) : (k, v) ∈ c := by
  induction c with
  | nil => simp [lookupSeat] at h
  | cons e t ih =>
    by_cases he : e.1 = k
    · simp [lookupSeat, he] at h
      have : e = (k, v) := by
        obtain ⟨e1, e2⟩ := e
        simp at he h
        simp [he, h]
      simp [this]
    · simp [lookupSeat, he] at h
      exact List.mem_cons_of_mem _ (ih h)

theorem mem_setSeat {c : SeatCache} {k : SeatKey} {v : Int} {e : SeatKey × Int}
    (h : e ∈ setSeat c k v) : e ∈ c ∨ e = (k, v) := by
  induction c with
  | nil => simp [setSeat] at h; simp [h]
  | cons f t ih =>
    by_cases hf : f.1 = k
    · simp [setSeat, hf] at h
      rcases h with h | h
      · right; simp [h]
      · left; exact List.mem_cons_of_mem _ h
    · simp [setSeat, hf] at h
      rcases h with h | h
      · left; simp [h]
      · rcases ih h with h' | h'
        · left; exact List.mem_cons_of_mem _ h'
        · right; exact h'

theorem cacheNonneg_setSeat {c : SeatCache} {k : SeatKey} {v : Int}
    (hc : CacheNonneg c) (hv : 0 ≤ v) : CacheNonneg (setSeat c k v) := by
  intro e he
  rcases mem_setSeat he with h | h
  · exact hc e h
  · simp [h, hv]

theorem cacheNonneg_append {c : SeatCache} {k : SeatKey} {v : Int}
    (hc : CacheNonneg c) (hv : 0 ≤ v) : CacheNonneg (c ++ [(k, v)]) := by
  intro e he
  rcases List.mem_append.mp he with h | h
  · exact hc e h
  · simp at h; simp [h, hv]

theorem cacheNonneg_applySeatOp {c : SeatCache} {op : SeatOp}
    (hc : CacheNonneg c) (hop : 0 ≤ op.amount) : CacheNonneg (applySeatOp c op) := by
  cases op with
  | dec id s d =>
    simp only [applySeatOp, DecrementSeats]
    cases hl : lookupSeat c (id, d) with
    | none => simpa [hl] using hc
    | some v =>
      by_cases hlt : v < s
      · simpa [hl, hlt] using hc
      · simp only [hl, hlt, if_false]
        exact cacheNonneg_setSeat hc (by omega)
  | inc id s d =>
    simp only [applySeatOp, IncrementSeats]
    cases hl : lookupSeat c (id, d) with
    | none => simpa [hl] using cacheNonneg_append hc (by simpa using hop)
    | some v =>
      have hv : 0 ≤ v := hc _ (lookupSeat_mem hl)
      simp only [hl]
      exact cacheNonneg_setSeat hc (by simp [SeatOp.amount] at hop; omega)

theorem setSeat_setSeat (c : SeatCache) (k : SeatKey) (a b : Int) :
    setSeat (setSeat c k a) k b = setSeat c k b := by
  induction c with
  | nil => simp [setSeat]
  | cons e t ih =>
    by_cases he : e.1 = k
    · simp [setSeat, he]
    · simp [setSeat, he, ih]

theorem setSeat_lookup_eq {c : SeatCache} {k : SeatKey} {v : Int}
    (h : lookupSeat c k = some v) : setSeat c k v = c := by
  induction c with
  | nil => simp [lookupSeat] at h
  | cons e t ih =>
    by_cases he : e.1 = k
    · obtain ⟨e1, e2⟩ := e
      simp at he
      subst he
      simp [lookupSeat] at h
      subst h
      simp [setSeat]
    · simp [lookupSeat, he] at h
      simp [setSeat, he, ih h]

theorem lookupSeat_setSeat_self (c : SeatCache) (k : SeatKey) (v : Int) :
    lookupSeat (setSeat c k v) k = some v := by
  induction c with
  | nil => simp [setSeat, lookupSeat]
  | cons e t ih =>
    by_cases he : e.1 = k
    · simp [setSeat, he, lookupSeat]
    · simp [setSeat, he, lookupSeat, ih]

/-- A successful decrement followed by the compensating increment on
the same key restores the seat cache exactly. -/
theorem incrementSeats_restores {c : SeatCache} {id : Nat} {s d v : Int}
    (h : lookupSeat c (id, d) = some v) :
    IncrementSeats (setSeat c (id, d) (v - s)) id s d = c := by
  unfold IncrementSeats
  simp only [lookupSeat_setSeat_self, setSeat_setSeat]
  have hv : v - s + s = v := by ring
  rw [hv, setSeat_lookup_eq h]

theorem lookupKV_delKV_self {κ α : Type} [DecidableEq κ]
    (l : List (κ × α)) (k : κ) : lookupKV (delKV l k) k = none := by
  induction l with
  | nil => simp [delKV, lookupKV]
  | cons e t ih =>
    by_cases he : e.1 = k
    · simp [delKV, he, ih]
    · simp [delKV, he, lookupKV, ih]

theorem lookupKV_setKV_self {κ α : Type} [DecidableEq κ]
    (l : List (κ × α)) (k : κ) (v : α) : lookupKV (setKV l k v) k = some v := by
  induction l with
  | nil => simp [setKV, lookupKV]
  | cons e t ih =>
    by_cases he : e.1 = k
    · simp [setKV, he, lookupKV]
    · simp [setKV, he, lookupKV, ih]

theorem lookupKV_updateBookingStatus {l : List (Nat × Booking)} {k : Nat} {b : Booking}
    (s : String) (h : lookupKV l k = some b) :
    lookupKV (updateBookingStatus l k s) k = some { b with status := s } := by
  induction l with
  | nil => simp [lookupKV] at h
  | cons e t ih =>
    by_cases he : e.1 = k
    · simp [lookupKV, he] at h
      simp [updateBookingStatus, lookupKV, he, h]
    · simp [lookupKV, he] at h
      simp only [updateBookingStatus, List.map_cons, if_neg he]
      simp only [lookupKV, if_neg he]
      exact ih h

theorem cacheNonneg_applySeatOps {ops : List SeatOp} {c : SeatCache}
    (hc : CacheNonneg c) (hops : ∀ op ∈ ops, 0 ≤ op.amount) :
    CacheNonneg (applySeatOps ops c) := by
  induction ops generalizing c with
  | nil => simpa [applySeatOps] using hc
  | cons op rest ih =>
    have h1 : CacheNonneg (applySeatOp c op) :=
      cacheNonneg_applySeatOp hc (hops op (List.mem_cons_self _ _))
    have := ih h1 (fun o ho => hops o (List.mem_cons_of_mem _ ho))
    simpa [applySeatOps, List.foldl_cons] using this

/-- C1: for every `(flightID, date)` key, `DecrementSeats` succeeds
(subtracting the requested seats in the single atomic check-and-subtract
step of the Lua script) exactly when the current count is at least the
requested seats; it fails with the insufficient-seats error leaving the
count unchanged when the current count is smaller; it fails with the
not-found error leaving the cache unchanged when the key has no entry;
and along every sequence of decrement/increment operations (with
nonnegative seat amounts) the available-seat counts never go
negative. -/
theorem seat_inventory_never_negative
    (c : SeatCache) (flightID : Nat) (seats date : Int) :
    (lookupSeat c (flightID, date) = none →
      DecrementSeats c flightID seats date = .error .notFound ∧
      applySeatOp c (.dec flightID seats date) = c) ∧
    (∀ v, lookupSeat c (flightID, date) = some v → v < seats →
      DecrementSeats c flightID seats date = .error .insufficient ∧
      applySeatOp c (.dec flightID seats date) = c) ∧
    (∀ v, lookupSeat c (flightID, date) = some v → seats ≤ v →
      DecrementSeats c flightID seats date =
        .ok (v - seats, setSeat c (flightID, date) (v - seats))) ∧
    (∀ ops : List SeatOp, CacheNonneg c → (∀ op ∈ ops, 0 ≤ op.amount) →
      CacheNonneg (applySeatOps ops c)) := by
  refine ⟨?_, ?_, ?_, ?_⟩
  · intro h
    constructor
    · simp [DecrementSeats, h]
    · simp [applySeatOp, DecrementSeats, h]
  · intro v hv hlt
    constructor
    · simp [DecrementSeats, hv, hlt]
    · simp [applySeatOp, DecrementSeats, hv, hlt]
  · intro v hv hle
    simp [DecrementSeats, hv, not_lt.mpr hle]
  · intro ops hc hops
    exact cacheNonneg_applySeatOps hc hops

/-- Concrete witness for the seat-inventory claim: on a cache holding 5
seats for flight 1, decrementing 3 succeeds with new count 2, and a
decrement-then-increment sequence keeps the cache nonnegative. -/
theorem seat_inventory_never_negative_witness :
    DecrementSeats [((1, (0 : Int)), (5 : Int))] 1 3 0 =
      .ok (5 - 3, setSeat [((1, (0 : Int)), (5 : Int))] (1, 0) (5 - 3)) ∧
    CacheNonneg (applySeatOps [.dec 1 3 0, .inc 1 3 0] [((1, (0 : Int)), (5 : Int))]) :=
  ⟨(seat_inventory_never_negative [((1, 0), 5)] 1 3 0).2.2.1 5 (by decide) (by decide),
   (seat_inventory_never_negative [((1, 0), 5)] 1 3 0).2.2.2
     [.dec 1 3 0, .inc 1 3 0] (by decide) (by decide)⟩

/-- C2: in every booking saga where the seat decrement succeeded and
the payment collaborator then returns status `failed` or `timeout`,
`CreateBooking` runs compensation — the seat inventory is incremented
back by the reserved seat count (restoring the cache to its exact
pre-saga value, so decrement and increment net to zero) and the
TempBooking is deleted — and terminates with status `failed` carrying
the payment response's message. -/
theorem saga_payment_failure_compensates
    (env : SagaEnv) (req : BookingRequest) (st : BookingState)
    (validation : FlightValidationResponse) (presp : PaymentResponse) (cur : Int)
    (hval : env.validation = .ok validation) (hvalid : validation.valid = true)
    (htmp : env.tempSetOK = true)
    (hseat : lookupSeat st.seatCache (req.flightID, req.date) = some cur)
    (hle : req.seats ≤ cur)
    (hpay : env.payment = .ok presp)
    (hstatus : presp.status = PaymentStatusFailed ∨ presp.status = PaymentStatusTimeout)
    (hinc : env.incrementOK = true) :
    ∃ st', CreateBooking env req st =
        .ok ({ status := BookingStatusFailed, totalAmount := validation.price,
               message := presp.message }, st') ∧
      st'.seatCache = st.seatCache ∧
      lookupKV st'.tempBookings (req.userID, req.flightID) = none ∧
      st'.bookings = st.bookings := by
  have hdec : DecrementSeats st.seatCache req.flightID req.seats req.date =
      .ok (cur - req.seats, setSeat st.seatCache (req.flightID, req.date) (cur - req.seats)) := by
    simp [DecrementSeats, hseat, not_lt.mpr hle]
  have hnsucc : ¬ presp.status = PaymentStatusSuccess := by
    rcases hstatus with h | h <;>
      simp [h, PaymentStatusFailed, PaymentStatusTimeout, PaymentStatusSuccess]
  refine ⟨{ st with
      tempBookings := delKV (setKV st.tempBookings (req.userID, req.flightID)
        ⟨req.userID, req.flightID, req.seats, validation.price, req.date,
          env.now, env.now + 15 * 60⟩) (req.userID, req.flightID) },
    ?_, rfl, lookupKV_delKV_self _ _, rfl⟩
  simp only [CreateBooking, hval, hvalid, Bool.true_eq_false, if_false, htmp, hdec,
    hpay, if_neg hnsucc, if_pos hstatus, revertBookingOnFailure, if_pos hinc,
    incrementSeats_restores hseat]

/-- Concrete witness for the payment-failure compensation claim: a
one-entry cache with 5 seats, a 2-seat booking, and a payment that
returns status `failed`. -/
theorem saga_payment_failure_compensates_witness :
    ∃ st', CreateBooking
        { validation := .ok { valid := true, message := "", price := 200, available := 5 },
          tempSetOK := true,
          payment := .ok { paymentID := "", status := "failed", message := "card declined" },
          persist := .ok 9, incrementOK := true, now := 0 }
        { userID := 1, flightID := 2, seats := 2, date := 3 }
        { seatCache := [((2, 3), 5)], tempBookings := [], bookings := [], bookingCache := [] } =
        .ok ({ status := BookingStatusFailed, totalAmount := 200,
               message := "card declined" }, st') ∧
      st'.seatCache = [((2, 3), 5)] ∧
      lookupKV st'.tempBookings (1, 2) = none ∧
      st'.bookings = [] :=
  saga_payment_failure_compensates
    { validation := .ok { valid := true, message := "", price := 200, available := 5 },
      tempSetOK := true,
      payment := .ok { paymentID := "", status := "failed", message := "card declined" },
      persist := .ok 9, incrementOK := true, now := 0 }
    { userID := 1, flightID := 2, seats := 2, date := 3 }
    { seatCache := [((2, 3), 5)], tempBookings := [], bookings := [], bookingCache := [] }
    { valid := true, message := "", price := 200, available := 5 }
    { paymentID := "", status := "failed", message := "card declined" }
    5 rfl rfl rfl (by decide) (by decide) rfl (by decide) rfl

/-- C3 counterexample: in a saga where the payment collaborator is
unreachable (the payment call returns a transport error), the claim
predicts status `pending` with the TempBooking intact and no
compensation; the code instead runs compensation (the TempBooking is
deleted and the seat cache is restored by the compensating increment)
and returns status `failed`. -/
theorem saga_ambiguous_payment_counterexample :
    CreateBooking
      { validation := .ok { valid := true, message := "", price := 100, available := 5 },
        tempSetOK := true, payment := .error "connection refused",
        persist := .ok 7, incrementOK := true, now := 0 }
      { userID := 1, flightID := 2, seats := 1, date := 0 }
      { seatCache := [((2, 0), 5)], tempBookings := [], bookings := [], bookingCache := [] } =
      .ok ({ status := BookingStatusFailed,
             message := "Payment failed: connection refused" },
        { seatCache := [((2, 0), 5)], tempBookings := [],
          bookings := [], bookingCache := [] }) ∧
    BookingStatusFailed ≠ BookingStatusPending := by
  constructor
  · rfl
  · decide

/-- C3 (amended): only when the payment collaborator RETURNS a
response whose status is none of `success`, `failed`, `timeout` does
`CreateBooking` leave the TempBooking intact, skip compensation (the
seat count stays decremented), and terminate with status `pending`;
when the collaborator is unreachable or the call is cancelled, the
code instead compensates and terminates with status `failed`. -/
theorem saga_unexpected_status_pending
    (env : SagaEnv) (req : BookingRequest) (st : BookingState)
    (validation : FlightValidationResponse) (presp : PaymentResponse) (cur : Int)
    (hval : env.validation = .ok validation) (hvalid : validation.valid = true)
    (htmp : env.tempSetOK = true)
    (hseat : lookupSeat st.seatCache (req.flightID, req.date) = some cur)
    (hle : req.seats ≤ cur)
    (hpay : env.payment = .ok presp)
    (hs1 : presp.status ≠ PaymentStatusSuccess)
    (hs2 : presp.status ≠ PaymentStatusFailed)
    (hs3 : presp.status ≠ PaymentStatusTimeout) :
    ∃ st', CreateBooking env req st =
        .ok ({ status := BookingStatusPending, totalAmount := validation.price,
               message := "Payment pending, please retry" }, st') ∧
      lookupKV st'.tempBookings (req.userID, req.flightID) =
        some ⟨req.userID, req.flightID, req.seats, validation.price, req.date,
              env.now, env.now + 15 * 60⟩ ∧
      lookupSeat st'.seatCache (req.flightID, req.date) = some (cur - req.seats) := by
  have hdec : DecrementSeats st.seatCache req.flightID req.seats req.date =
      .ok (cur - req.seats, setSeat st.seatCache (req.flightID, req.date) (cur - req.seats)) := by
    simp [DecrementSeats, hseat, not_lt.mpr hle]
  have hor : ¬(presp.status = PaymentStatusFailed ∨ presp.status = PaymentStatusTimeout) := by
    tauto
  refine ⟨{ st with
      tempBookings := setKV st.tempBookings (req.userID, req.flightID)
        ⟨req.userID, req.flightID, req.seats, validation.price, req.date,
          env.now, env.now + 15 * 60⟩,
      seatCache := setSeat st.seatCache (req.flightID, req.date) (cur - req.seats) },
    ?_, lookupKV_setKV_self _ _ _, lookupSeat_setSeat_self _ _ _⟩
  simp only [CreateBooking, hval, hvalid, Bool.true_eq_false, if_false, htmp, hdec,
    hpay, if_neg hs1, if_neg hor]

/-- Concrete witness for the amended ambiguous-outcome claim: a
payment response with the unexpected status `pending` leaves the
TempBooking in place, keeps the decremented count, and yields a
`pending` booking response. -/
theorem saga_unexpected_status_pending_witness :
    ∃ st', CreateBooking
        { validation := .ok { valid := true, message := "", price := 100, available := 5 },
          tempSetOK := true,
          payment := .ok { paymentID := "", status := "pending", message := "queued" },
          persist := .ok 7, incrementOK := true, now := 0 }
        { userID := 1, flightID := 2, seats := 1, date := 0 }
        { seatCache := [((2, 0), 5)], tempBookings := [], bookings := [], bookingCache := [] } =
        .ok ({ status := BookingStatusPending, totalAmount := 100,
               message := "Payment pending, please retry" }, st') ∧
      lookupKV st'.tempBookings (1, 2) = some ⟨1, 2, 1, 100, 0, 0, 900⟩ ∧
      lookupSeat st'.seatCache (2, 0) = some (5 - 1) :=
  saga_unexpected_status_pending
    { validation := .ok { valid := true, message := "", price := 100, available := 5 },
      tempSetOK := true,
      payment := .ok { paymentID := "", status := "pending", message := "queued" },
      persist := .ok 7, incrementOK := true, now := 0 }
    { userID := 1, flightID := 2, seats := 1, date := 0 }
    { seatCache := [((2, 0), 5)], tempBookings := [], bookings := [], bookingCache := [] }
    { valid := true, message := "", price := 100, available := 5 }
    { paymentID := "", status := "pending", message := "queued" }
    5 rfl rfl rfl (by decide) (by decide) rfl (by decide) (by decide) (by decide)

/-- C7: in every booking saga where payment succeeded but persisting
the durable Booking record fails, `CreateBooking` runs the same
compensation as for a payment failure — the seat cache is restored to
its pre-saga value and the TempBooking is deleted — leaves the durable
store without a record, and terminates with a `failed` response whose
message `Failed to create booking: ...` identifies the
paid-but-unrecorded condition (no other saga outcome carries this
prefix). -/
theorem saga_persist_failure_compensates
    (env : SagaEnv) (req : BookingRequest) (st : BookingState)
    (validation : FlightValidationResponse) (presp : PaymentResponse)
    (cur : Int) (e : String)
    (hval : env.validation = .ok validation) (hvalid : validation.valid = true)
    (htmp : env.tempSetOK = true)
    (hseat : lookupSeat st.seatCache (req.flightID, req.date) = some cur)
    (hle : req.seats ≤ cur)
    (hpay : env.payment = .ok presp)
    (hsucc : presp.status = PaymentStatusSuccess)
    (hpersist : env.persist = .error e)
    (hinc : env.incrementOK = true) :
    ∃ st', CreateBooking env req st =
        .ok ({ status := BookingStatusFailed,
               message := "Failed to create booking: " ++ e }, st') ∧
      st'.seatCache = st.seatCache ∧
      lookupKV st'.tempBookings (req.userID, req.flightID) = none ∧
      st'.bookings = st.bookings := by
  have hdec : DecrementSeats st.seatCache req.flightID req.seats req.date =
      .ok (cur - req.seats, setSeat st.seatCache (req.flightID, req.date) (cur - req.seats)) := by
    simp [DecrementSeats, hseat, not_lt.mpr hle]
  refine ⟨{ st with
      tempBookings := delKV (setKV st.tempBookings (req.userID, req.flightID)
        ⟨req.userID, req.flightID, req.seats, validation.price, req.date,
          env.now, env.now + 15 * 60⟩) (req.userID, req.flightID) },
    ?_, rfl, lookupKV_delKV_self _ _, rfl⟩
  simp only [CreateBooking, hval, hvalid, Bool.true_eq_false, if_false, htmp, hdec,
    hpay, if_pos hsucc, createPermanentBooking, hpersist, revertBookingOnFailure,
    if_pos hinc, incrementSeats_restores hseat]

/-- Concrete witness for the paid-but-unrecorded claim: payment
succeeds, the durable insert fails, and the saga compensates. -/
theorem saga_persist_failure_compensates_witness :
    ∃ st', CreateBooking
        { validation := .ok { valid := true, message := "", price := 300, available := 4 },
          tempSetOK := true,
          payment := .ok { paymentID := "pay-1", status := "success", message := "ok" },
          persist := .error "db down", incrementOK := true, now := 0 }
        { userID := 3, flightID := 4, seats := 2, date := 1 }
        { seatCache := [((4, 1), 4)], tempBookings := [], bookings := [], bookingCache := [] } =
        .ok ({ status := BookingStatusFailed,
               message := "Failed to create booking: " ++ "db down" }, st') ∧
      st'.seatCache = [((4, 1), 4)] ∧
      lookupKV st'.tempBookings (3, 4) = none ∧
      st'.bookings = [] :=
  saga_persist_failure_compensates
    { validation := .ok { valid := true, message := "", price := 300, available := 4 },
      tempSetOK := true,
      payment := .ok { paymentID := "pay-1", status := "success", message := "ok" },
      persist := .error "db down", incrementOK := true, now := 0 }
    { userID := 3, flightID := 4, seats := 2, date := 1 }
    { seatCache := [((4, 1), 4)], tempBookings := [], bookings := [], bookingCache := [] }
    { valid := true, message := "", price := 300, available := 4 }
    { paymentID := "pay-1", status := "success", message := "ok" }
    4 "db down" rfl rfl rfl (by decide) (by decide) rfl (by decide) rfl rfl

/-- C8: `CancelBooking` succeeds exactly when the booking's durable
status is `pending` or `confirmed`; on success it durably sets the
status to `cancelled` and attempts the compensating seat increment
(when the increment call fails it is not propagated — the call still
succeeds — and the cancelled status is not rolled back); cancelling
the same booking a second time fails with the `CanCancel`
violation instead of silently succeeding. -/
theorem cancel_only_pending_or_confirmed
    (env : SagaEnv) (st : BookingState) (bookingID : Nat) (b : Booking)
    (hcache : lookupKV st.bookingCache bookingID = none)
    (hdb : lookupKV st.bookings bookingID = some b) :
    ((CancelBooking env st bookingID).isOk = true ↔
      (b.status = BookingStatusPending ∨ b.status = BookingStatusConfirmed)) ∧
    (∀ st2, CancelBooking env st bookingID = .ok st2 →
      lookupKV st2.bookings bookingID = some { b with status := BookingStatusCancelled } ∧
      st2.seatCache = (if env.incrementOK then
          IncrementSeats st.seatCache b.flightID b.seats b.date
        else st.seatCache) ∧
      ∀ env2 : SagaEnv, (CancelBooking env2 st2 bookingID).isOk = false) := by
  have hget : GetBooking st bookingID =
      .ok (b, { st with bookingCache := setKV st.bookingCache bookingID b }) := by
    simp [GetBooking, hcache, hdb]
  have hcc : b.CanCancel = true ↔
      (b.status = BookingStatusPending ∨ b.status = BookingStatusConfirmed) := by
    simp [Booking.CanCancel]
  cases hcan : b.CanCancel with
  | false =>
    have hres : CancelBooking env st bookingID =
        .error ("booking cannot be cancelled in current status: " ++ b.status) := by
      simp [CancelBooking, hget, hcan]
    constructor
    · rw [hres]
      simp only [Except.isOk, Except.toBool, false_iff]
      rw [← hcc, hcan]
    · intro st2 h
      rw [hres] at h
      exact absurd h (by simp)
  | true =>
    have hres : CancelBooking env st bookingID = .ok
        { st with
          bookings := updateBookingStatus st.bookings bookingID BookingStatusCancelled,
          seatCache := if env.incrementOK then
              IncrementSeats st.seatCache b.flightID b.seats b.date
            else st.seatCache,
          bookingCache := delKV (setKV st.bookingCache bookingID b) bookingID } := by
      simp [CancelBooking, hget, hcan]
    constructor
    · rw [hres]
      simp only [Except.isOk, Except.toBool, true_iff]
      rw [← hcc]
      exact hcan
    · intro st2 h
      rw [hres] at h
      injection h with h
      subst h
      refine ⟨lookupKV_updateBookingStatus _ hdb, rfl, ?_⟩
      intro env2
      simp only [CancelBooking, GetBooking, lookupKV_delKV_self,
        lookupKV_updateBookingStatus _ hdb]
      simp [Booking.CanCancel, BookingStatusCancelled, BookingStatusPending,
        BookingStatusConfirmed, Except.isOk, Except.toBool]

/-- Concrete witness for the cancellation claim: a confirmed booking
in the durable store can be cancelled. -/
theorem cancel_only_pending_or_confirmed_witness :
    (CancelBooking ⟨.ok ⟨true, "", 0, 0⟩, true, .error "unused", .ok 0, true, 0⟩
      ⟨[((2, 0), 3)], [], [(5, ⟨5, 1, 2, 2, 100, "confirmed", "p", 0, 0⟩)], []⟩
      5).isOk = true :=
  ((cancel_only_pending_or_confirmed
      ⟨.ok ⟨true, "", 0, 0⟩, true, .error "unused", .ok 0, true, 0⟩
      ⟨[((2, 0), 3)], [], [(5, ⟨5, 1, 2, 2, 100, "confirmed", "p", 0, 0⟩)], []⟩
      5 ⟨5, 1, 2, 2, 100, "confirmed", "p", 0, 0⟩
      (by decide) (by decide)).1).mpr (Or.inr rfl)

theorem mem_insertSorted {α : Type} (le : α → α → Bool) (a b : α) (l : List α) :
    a ∈ insertSorted le b l ↔ a = b ∨ a ∈ l := by
  induction l with
  | nil => simp [insertSorted]
  | cons c t ih =>
    cases h : le b c with
    | true => simp [insertSorted, h]
    | false =>
      simp [insertSorted, h, ih]
      tauto

theorem mem_sortByLe {α : Type} (le : α → α → Bool) (a : α) (l : List α) :
    a ∈ sortByLe le l ↔ a ∈ l := by
  induction l with
  | nil => simp [sortByLe]
  | cons b t ih => simp [sortByLe, mem_insertSorted, ih]

theorem length_insertSorted {α : Type} (le : α → α → Bool) (a : α) (l : List α) :
    (insertSorted le a l).length = l.length + 1 := by
  induction l with
  | nil => simp [insertSorted]
  | cons b t ih =>
    cases h : le a b with
    | true => simp [insertSorted, h]
    | false => simp [insertSorted, h, ih]

theorem length_sortByLe {α : Type} (le : α → α → Bool) (l : List α) :
    (sortByLe le l).length = l.length := by
  induction l with
  | nil => rfl
  | cons b t ih => simp [sortByLe, length_insertSorted, ih]

theorem mem_sortFlightPaths {paths : List FlightPath} {sortBy : String} {p : FlightPath} :
    p ∈ sortFlightPaths paths sortBy ↔ p ∈ paths := by
  unfold sortFlightPaths
  split_ifs <;> simp [mem_sortByLe]

theorem length_sortFlightPaths (paths : List FlightPath) (sortBy : String) :
    (sortFlightPaths paths sortBy).length = paths.length := by
  unfold sortFlightPaths
  split_ifs <;> simp [length_sortByLe]

theorem filterAndSortFlights_eq_take (c : SeatCache) (db flights : List Flight)
    (seats : Int) (sortBy : String) :
    filterAndSortFlights c db flights seats sortBy =
      (sortFlightPaths (validPathsOf c db flights seats) sortBy).take 20 := by
  simp only [filterAndSortFlights]
  split_ifs with h
  · rfl
  · exact (List.take_of_length_le (by omega)).symm

theorem filterAndSortFlights_length_le (c : SeatCache) (db flights : List Flight)
    (seats : Int) (sortBy : String) :
    (filterAndSortFlights c db flights seats sortBy).length ≤ 20 := by
  rw [filterAndSortFlights_eq_take, List.length_take]
  omega

theorem mem_filterAndSortFlights {c : SeatCache} {db flights : List Flight}
    {seats : Int} {sortBy : String} {p : FlightPath}
    (hp : p ∈ filterAndSortFlights c db flights seats sortBy) :
    ∃ f, p = mkFlightPath [f] := by
  rw [filterAndSortFlights_eq_take] at hp
  have h1 : p ∈ sortFlightPaths (validPathsOf c db flights seats) sortBy :=
    List.mem_of_mem_take hp
  rw [mem_sortFlightPaths] at h1
  unfold validPathsOf at h1
  rcases List.mem_filterMap.mp h1 with ⟨f, _, hf⟩
  cases hg : getAvailableSeats c db f.id (dateOf f.departureTime) with
  | none => rw [hg] at hf; simp at hf
  | some av =>
    rw [hg] at hf
    by_cases hge : seats ≤ av
    · simp only [if_pos hge, Option.some_inj] at hf
      exact ⟨f, hf.symm⟩
    · simp [hge] at hf

theorem dedupByKey_nodup (ps : List (List Flight)) (seen : List String) :
    ((dedupByKey ps seen).map generatePathKey).Nodup ∧
    ∀ k ∈ (dedupByKey ps seen).map generatePathKey, k ∉ seen := by
  induction ps generalizing seen with
  | nil => simp [dedupByKey]
  | cons p rest ih =>
    by_cases h : generatePathKey p ∈ seen
    · simp only [dedupByKey, if_pos h]
      exact ih seen
    · simp only [dedupByKey, if_neg h, List.map_cons, List.nodup_cons]
      obtain ⟨ih1, ih2⟩ := ih (generatePathKey p :: seen)
      refine ⟨⟨?_, ih1⟩, ?_⟩
      · intro hmem
        exact (ih2 _ hmem) (List.mem_cons_self _ _)
      · intro k hk
        rcases List.mem_cons.mp hk with h' | h'
        · rw [h']; exact h
        · exact fun hs => (ih2 k h') (List.mem_cons_of_mem _ hs)

/-- C4: the pathfinder contract fails on the code. The three-leg
network `A→B`, `B→C`, `C→D` admits a valid 2-connection itinerary
(all legs on the date, seats free, each connection strictly after the
previous arrival and within the 4-hour window, final destination `D`),
yet `findFlightPaths` returns nothing: the recursive arm of
`buildMultiStopQuery` constrains every added leg by
`f.destination = $2`, so a connecting leg that does not land at the
final destination is never explored (and with at most `maxStops = 3`
legs, no 3-connection itinerary can be produced either). -/
theorem pathfinder_misses_valid_two_stop_itinerary :
    SpecValidItinerary [flightAB, flightBC, flightCD] "A" "D" 0 1
      [flightAB, flightBC, flightCD] ∧
    findFlightPaths [flightAB, flightBC, flightCD] "A" "D" 0 1 = [] := by
  constructor <;> decide

/-- C5 counterexample: on a database holding the single direct flight
`A→D`, one `findFlightPaths` call returns the same one-leg itinerary
four times — once from the direct pass and once from each of the
1-, 2- and 3-stop passes — so itineraries are NOT deduplicated across
passes. -/
theorem pathfinder_duplicates_counterexample :
    (findFlightPaths [flightAD] "A" "D" 0 1).map
        (fun p => p.flights.map (fun f => f.id)) =
      [[1], [1], [1], [1]] ∧
    ¬ ((findFlightPaths [flightAD] "A" "D" 0 1).map
        (fun p => p.flights.map (fun f => f.id))).Nodup := by
  constructor <;> decide

/-- C5 (amended): deduplication by the ordered list of leg identities
happens only WITHIN each single `findMultiStopFlights` pass — there
every itinerary appears at most once — while across the direct pass
and the 1-, 2-, 3-stop passes of one `findFlightPaths` call the same
itinerary can be returned repeatedly. -/
theorem multiStopFlights_dedup_within_pass
    (db : List Flight) (source destination : String)
    (date seats : Int) (maxStops : Nat) :
    ((findMultiStopFlights db source destination date seats maxStops).map
      (fun p => generatePathKey p.flights)).Nodup := by
  simp only [findMultiStopFlights]
  rw [List.map_map]
  exact (dedupByKey_nodup _ _).1

/-- C9: every itinerary in a `SearchFlights` response consists of
exactly one flight leg with `stops = 0`: the pathfinder's multi-stop
paths are flattened to individual flights before caching, and the
per-request seat filter rebuilds each result path from a single
flight. -/
theorem search_results_single_leg
    (c : SeatCache) (db : List Flight) (searchCache : Option (List Flight))
    (req : SearchRequest) (p : FlightPath)
    (hp : p ∈ (SearchFlights c db searchCache req).paths) :
    p.flights.length = 1 ∧ p.stops = 0 := by
  have hone : ∃ f, p = mkFlightPath [f] := by
    cases searchCache with
    | some cached => exact mem_filterAndSortFlights (by simpa [SearchFlights] using hp)
    | none => exact mem_filterAndSortFlights (by simpa [SearchFlights] using hp)
  rcases hone with ⟨f, rfl⟩
  exact ⟨rfl, by simp [mkFlightPath]⟩

/-- Concrete witness for the single-leg claim: the sole path returned
for a cached one-flight search. -/
theorem search_results_single_leg_witness :
    (mkFlightPath [flightAD]).flights.length = 1 ∧ (mkFlightPath [flightAD]).stops = 0 :=
  search_results_single_leg [((1, 0), 5)] [flightAD] (some [flightAD])
    ⟨"A", "D", 0, 1, "cheapest"⟩ (mkFlightPath [flightAD]) (by decide)

/-- C10: every `SearchFlights` response returns at most 20
itineraries — the seat-filtered, sorted path list is truncated to its
first 20 entries — and the response's `count` equals the number of
paths actually returned. -/
theorem search_results_capped_at_20
    (c : SeatCache) (db : List Flight) (searchCache : Option (List Flight))
    (req : SearchRequest) :
    (SearchFlights c db searchCache req).count =
      (SearchFlights c db searchCache req).paths.length ∧
    (SearchFlights c db searchCache req).paths.length ≤ 20 ∧
    ∀ flights seats sortBy, filterAndSortFlights c db flights seats sortBy =
      (sortFlightPaths (validPathsOf c db flights seats) sortBy).take 20 := by
  refine ⟨?_, ?_, fun flights seats sortBy => filterAndSortFlights_eq_take c db flights seats sortBy⟩
  · cases searchCache <;> rfl
  · cases searchCache <;> exact filterAndSortFlights_length_le _ _ _ _ _

end CredFlights
